import Mathlib

/-
Verification of the grafana multi-backend logging pipeline
(pkg/infra/log/log.go) against its natural-language specification.

The Go source is shallowly embedded: the package-level mutable state
(llog, loggersToClose, loggersToReload, filters, Root) becomes an explicit
GlobalState record, and every function that mutates it takes and returns the
state.  Go maps are embedded as association lists whose insert overwrites the
existing entry for a key (so each key has at most one live binding, exactly
like a Go map); the two filter-merge loops iterate the list in order, which is
harmless because their conditional-insert bodies make the result independent
of iteration order.  Side effects on the bootstrap logger llog are collected
as a list of diagnostic strings.  External collaborators (go-kit writers, the
rotating file writer, syslog, the ini parser, the filesystem) are embedded at
their interface boundary: construction and initialization outcomes are
supplied by an Env oracle, and the resulting handles are inert values carrying
their future Close/Reload results.
-/

namespace GrafLog

/-! ### Kernel-reducible string helpers (embedding of the Go stdlib calls) -/

/-- Embedding of strings.Split with a one-character separator, via char lists
(structural recursion, so concrete calls reduce in the kernel). -/
def splitCharAux (p : Char → Bool) : List Char → List Char → List (List Char)
  | [], acc => [acc.reverse]
  | c :: cs, acc =>
      if p c then acc.reverse :: splitCharAux p cs []
      else splitCharAux p cs (c :: acc)

/-- Embedding of strings.Split(s, sep) for a one-character separator. -/
def goSplitOn (sep : Char) (s : String) : List String :=
  (splitCharAux (fun c => c == sep) s.data []).map String.mk

/-- ASCII whitespace test (embedding of the unicode.IsSpace cases that matter
for configuration strings). -/
def isWS (c : Char) : Bool :=
  c == ' ' || c == '\t' || c == '\n' || c == '\r'

/-- Embedding of strings.TrimSpace restricted to ASCII whitespace. -/
def goTrimSpace (s : String) : String :=
  String.mk (((s.data.dropWhile isWS).reverse.dropWhile isWS).reverse)

/-- ASCII lower-casing of one character. -/
def lowerChar (c : Char) : Char :=
  if 'A' ≤ c ∧ c ≤ 'Z' then Char.ofNat (c.toNat + 32) else c

/-- Embedding of strings.ToLower restricted to ASCII. -/
def goToLower (s : String) : String :=
  String.mk (s.data.map lowerChar)

/-- Modelled from the spec: grafana's util.SplitString (its source file is not
under src/), which splits a configuration string into entries on commas and
spaces, dropping empty entries. -/
def splitString (s : String) : List String :=
  ((splitCharAux (fun c => c == ',' || c == ' ') s.data []).map String.mk).filter
    (fun x => x ≠ "")

def parseNatAux : List Char → Nat → Option Nat
  | [], acc => some acc
  | c :: cs, acc =>
      if '0' ≤ c ∧ c ≤ '9' then parseNatAux cs (acc * 10 + (c.toNat - '0'.toNat))
      else none

/-- Integer parsing at the interface boundary of the ini library (Key.MustInt /
Key.MustInt64 fall back to their default on a parse failure). -/
def parseInt (s : String) : Option Int :=
  match s.data with
  | [] => none
  | '-' :: cs =>
      match cs with
      | [] => none
      | _ => (parseNatAux cs 0).map (fun n => -(n : Int))
  | cs => (parseNatAux cs 0).map (fun n => (n : Int))

/-- Boolean parsing at the interface boundary of the ini library
(Key.MustBool falls back to its default on a parse failure). -/
def parseBool (s : String) : Option Bool :=
  match goToLower s with
  | "1" | "t" | "true" | "yes" | "y" | "on" => some true
  | "0" | "f" | "false" | "no" | "n" | "off" => some false
  | _ => none

/-- Embedding of ini Key.MustString: the default replaces an empty value. -/
def mustString (v dflt : String) : String :=
  if v = "" then dflt else v

/-- Embedding of ini Key.MustBool. -/
def mustBool (v : String) (dflt : Bool) : Bool :=
  (parseBool v).getD dflt

/-- Embedding of ini Key.MustInt / MustInt64. -/
def mustInt (v : String) (dflt : Int) : Int :=
  (parseInt v).getD dflt

/-- Embedding of filepath.Dir for slash-separated paths: drop the last path
component; a bare file name yields ".", a root-level file yields "/". -/
def dirOf (s : String) : String :=
  match s.data.reverse.dropWhile (fun c => c ≠ '/') with
  | [] => "."
  | _ :: rest => if rest = [] then "/" else String.mk rest.reverse

/-! ### Configuration model (ini.File at its interface boundary) -/

/-- An ini configuration file: named sections holding key/value pairs. -/
structure IniFile where
  sections : List (String × List (String × String))
deriving DecidableEq, Repr

def lookupStr : List (String × String) → String → Option String
  | [], _ => none
  | kv :: t, k => if kv.fst = k then some kv.snd else lookupStr t k

def lookupSec : List (String × List (String × String)) → String → Option (List (String × String))
  | [], _ => none
  | kv :: t, k => if kv.fst = k then some kv.snd else lookupSec t k

/-- Embedding of ini File.GetSection: fails (none) when the section is absent. -/
def getSection (cfg : IniFile) (name : String) : Option (List (String × String)) :=
  lookupSec cfg.sections name

/-- Embedding of cfg.Section(sec).Key(key).String(): missing sections and keys
read as the empty string (ini auto-creates empty sections on Section()). -/
def iniGet (cfg : IniFile) (sec key : String) : String :=
  (lookupStr ((getSection cfg sec).getD []) key).getD ""

/-! ### Level policy -/

/-- Embedding of the go-kit level.Option values used by the source
(level.AllowDebug / AllowInfo / AllowWarn / AllowError). -/
inductive LevelOption where
  | allowDebug
  | allowInfo
  | allowWarn
  | allowError
deriving DecidableEq, Repr

/-- Severity of an emitted event (go-kit's four dispatch levels). -/
inductive Severity where
  | debug
  | info
  | warn
  | error
deriving DecidableEq, Repr

/-- Does a go-kit level filter let an event of the given severity through? -/
def passes (m : LevelOption) (sev : Severity) : Bool :=
  match m, sev with
  | .allowDebug, _ => true
  | .allowInfo, .debug => false
  | .allowInfo, _ => true
  | .allowWarn, .debug => false
  | .allowWarn, .info => false
  | .allowWarn, _ => true
  | .allowError, .error => true
  | .allowError, _ => false

/-- Embedding of the package-level logLevels map (source lines 86-93). -/
def logLevels : String → Option LevelOption
  | "trace" => some .allowDebug
  | "debug" => some .allowDebug
  | "info" => some .allowInfo
  | "warn" => some .allowWarn
  | "error" => some .allowError
  | "critical" => some .allowError
  | _ => none

/-- Embedding of getLogLevelFromString (source lines 102-111): the second
component collects the diagnostics written to the bootstrap logger llog. -/
def getLogLevelFromString (levelName : String) : LevelOption × List String :=
  match logLevels levelName with
  | some l => (l, [])
  | none => (.allowError, ["Unknown log level: " ++ levelName])

/-- Embedding of getLogLevelFromConfig (source lines 95-100): read the level
key with a default, lower-case it, then resolve it. -/
def getLogLevelFromConfig (key dflt : String) (cfg : IniFile) :
    String × (LevelOption × List String) :=
  let levelName := goToLower (mustString (iniGet cfg key "level") dflt)
  (levelName, getLogLevelFromString levelName)

/-! ### Filter maps (Go map of string to level.Option) -/

/-- A Go map from logger name to level option, as an association list with at
most one live binding per key. -/
abbrev FilterMap := List (String × LevelOption)

/-- Go map assignment m[k] = v: overwrite the existing binding or append. -/
def insertF : FilterMap → String → LevelOption → FilterMap
  | [], k, v => [(k, v)]
  | kv :: t, k, v =>
      if kv.fst = k then (k, v) :: t else kv :: insertF t k v

/-- Go map read m[k]. -/
def lookupF : FilterMap → String → Option LevelOption
  | [], _ => none
  | kv :: t, k => if kv.fst = k then some kv.snd else lookupF t k

/-- Go two-valued map read: the exist flag of v, exist := m[k]. -/
def containsF (m : FilterMap) (k : String) : Bool :=
  (lookupF m k).isSome

/-- Loop body of getFilters (source lines 117-122): split on the colon, and
when there are at least two parts, bind the first part to the resolved level
of the second, collecting any diagnostic. -/
def getFiltersStep (acc : FilterMap × List String) (filterStr : String) :
    FilterMap × List String :=
  match goSplitOn ':' filterStr with
  | p0 :: p1 :: _ =>
      let r := getLogLevelFromString p1
      (insertF acc.fst p0 r.fst, acc.snd ++ r.snd)
  | _ => acc

/-- Embedding of getFilters (source lines 114-125). -/
def getFilters (filterStrArray : List String) : FilterMap × List String :=
  filterStrArray.foldl getFiltersStep ([], [])

/-- Shared shape of the two merge loops in ReadLoggingConfig (source lines
269-281): copy each source entry whose key is absent into the target. -/
def mergeAbsent (target src : FilterMap) : FilterMap :=
  src.foldl
    (fun t kv => if containsF t kv.fst then t else insertF t kv.fst kv.snd)
    target

/-! ### Sink handles, registry state -/

/-- Errors are represented by their message. -/
abbrev Err := String

/-- A closable/reloadable handle (file or syslog writer).  The handle is an
external collaborator; its future Close()/Reload() outcomes are carried as
data, and hid identifies the handle in invocation traces. -/
structure Handle where
  hid : Nat
  closeErr : Option Err := none
  reloadErr : Option Err := none
deriving DecidableEq, Repr

/-- The output format selected by getLogFormat. -/
inductive FormatKind where
  | termColor
  | logfmt
  | json
deriving DecidableEq, Repr

/-- Embedding of getLogFormat (source lines 160-184); isTerminal stands for
isatty.IsTerminal(os.Stdout.Fd()). -/
def getLogFormat (isTerminal : Bool) (format : String) : FormatKind :=
  match format with
  | "console" => if isTerminal then .termColor else .logfmt
  | "text" => .logfmt
  | "json" => .json
  | _ => .logfmt

/-- Configuration carried by the rotating file writer (source lines 244-251).
Modelled from the spec: the FileWriter type itself lives in a source file not
under src/; this record holds exactly the fields the loader assigns. -/
structure FileCfg where
  filename : String
  format : FormatKind
  rotate : Bool
  maxlines : Int
  maxsize : Nat
  daily : Bool
  maxdays : Int
deriving DecidableEq, Repr

/-- The value stored in a LogWithFilters.val: a physical backend, possibly
wrapped by log.With (context) and level.NewFilter (minimum level). -/
inductive SinkVal where
  | consoleSink (fmt : FormatKind)
  | fileSink (hid : Nat) (cfg : FileCfg)
  | syslogSink (hid : Nat) (fmt : FormatKind)
  | withContext (logger : String) (ctx : List String) (inner : SinkVal)
  | filtered (minLevel : LevelOption) (inner : SinkVal)
deriving DecidableEq, Repr

/-- Does an event of the given severity reach the physical backend through
this (possibly wrapped) sink value?  level.NewFilter drops events below its
minimum; log.With is transparent to filtering. -/
def SinkVal.allows : SinkVal → Severity → Bool
  | .filtered m inner, sev => passes m sev && inner.allows sev
  | .withContext _ _ inner, sev => inner.allows sev
  | _, _ => true

/-- Embedding of the LogWithFilters struct (source lines 37-41). -/
structure LogWithFilters where
  val : SinkVal
  filters : FilterMap
  maxLevel : LevelOption
deriving DecidableEq, Repr

/-- Embedding of the MultiLoggers struct (source lines 43-45). -/
structure MultiLoggers where
  loggers : List LogWithFilters
deriving DecidableEq, Repr

/-- The package-level mutable state of the source (lines 24-28): the bootstrap
logger's emitted diagnostics, the closable and reloadable handle lists, the
global filter table, and Root.  nextId is a modelling artifact supplying fresh
handle identities. -/
structure GlobalState where
  llogged : List String
  loggersToClose : List Handle
  loggersToReload : List Handle
  filters : FilterMap
  root : MultiLoggers
  nextId : Nat
deriving DecidableEq, Repr

/-- The state produced by the init function (source lines 30-35). -/
def initState : GlobalState :=
  { llogged := [], loggersToClose := [], loggersToReload := [],
    filters := [], root := ⟨[]⟩, nextId := 0 }

def llogAppend (s : GlobalState) (ds : List String) : GlobalState :=
  { s with llogged := s.llogged ++ ds }

/-! ### New (source lines 71-84) -/

/-- Embedding of New: for each handler of Root, wrap its value with the logger
name and context (log.With) and a creation-time level filter: the handler's
per-name filter entry when one exists, else the handler's maximum level.
Reading root as an argument makes the Go global read explicit; the returned
MultiLoggers is a plain value, so its filters are fixed at creation. -/
def New (logger : String) (ctx : List String) (root : MultiLoggers) : MultiLoggers :=
  ⟨root.loggers.map (fun lw =>
    let v := SinkVal.withContext logger ctx lw.val
    match lookupF lw.filters logger with
    | some fl => { lw with val := SinkVal.filtered fl v }
    | none => { lw with val := SinkVal.filtered lw.maxLevel v })⟩

/-! ### Close and Reload (source lines 187-208) -/

/-- Loop body of Close (source lines 189-193): keep the first error returned
by a handle's Close(). -/
def closeStep (err : Option Err) (h : Handle) : Option Err :=
  match h.closeErr, err with
  | some e, none => some e
  | _, _ => err

/-- Embedding of Close: invoke Close() on every closable handle (the trace in
the second component lists every invoked handle), keep only the first error,
and clear the closable list unconditionally. -/
def CloseOp (s : GlobalState) : Option Err × List Nat × GlobalState :=
  let err := s.loggersToClose.foldl closeStep none
  (err, s.loggersToClose.map (fun h => h.hid), { s with loggersToClose := [] })

/-- Embedding of Reload: invoke Reload() on the reloadable handles in order
(the trace lists the invoked handles) and stop at the first failure.  Reload
does not modify the package state. -/
def ReloadOp : List Handle → Option Err × List Nat
  | [] => (none, [])
  | h :: t =>
      match h.reloadErr with
      | some e => (some e, [h.hid])
      | none =>
          let r := ReloadOp t
          (r.fst, h.hid :: r.snd)

/-! ### ReadLoggingConfig (source lines 210-289) -/

/-- Environment oracle for the external effects of one configuration load:
the terminal check for the console format, the os.MkdirAll outcome keyed by
directory, the FileWriter.Init outcome keyed by fresh handle id, and the
future Close/Reload behavior of newly constructed handles. -/
structure Env where
  isTerminal : Bool
  mkdirErr : String → Option Err
  fileInitErr : Nat → Option Err
  handleCloseErr : Nat → Option Err
  handleReloadErr : Nat → Option Err

/-- Outcome of one mode's construction switch (source lines 232-267). -/
inductive BuildResult where
  | built (v : SinkVal) (s : GlobalState)
  | builderr (e : Err) (s : GlobalState)
  | nohandler
deriving Repr

/-- Embedding of the mode switch of ReadLoggingConfig (source lines 234-264):
console builds a stdout-backed value; file resolves the file name, creates the
directory, configures and initializes the rotating writer (failures abort the
load) and registers it for close and reload; syslog constructs the syslog
writer (NewSyslog, modelled from the spec: its source file is not under src/;
the spec says it constructs a connection and registers for close only) and
registers it for close; any other mode leaves the handler value unset. -/
def buildHandlerVal (cfg : IniFile) (logsPath : String) (env : Env)
    (mode : String) (format : FormatKind) (s : GlobalState) : BuildResult :=
  if mode = "console" then
    .built (SinkVal.consoleSink format) s
  else if mode = "file" then
    let fileName := mustString (iniGet cfg ("log." ++ mode) "file_name")
      (logsPath ++ "/grafana.log")
    let dpath := dirOf fileName
    match env.mkdirErr dpath with
    | some e =>
        .builderr ("failed to create log directory " ++ dpath)
          (llogAppend s ["Failed to create directory " ++ dpath ++ ": " ++ e])
    | none =>
        let hid := s.nextId
        let fcfg : FileCfg := {
          filename := fileName
          format := format
          rotate := mustBool (iniGet cfg ("log." ++ mode) "log_rotate") true
          maxlines := mustInt (iniGet cfg ("log." ++ mode) "max_lines") 1000000
          maxsize := 2 ^ (mustInt (iniGet cfg ("log." ++ mode) "max_size_shift") 28).toNat
          daily := mustBool (iniGet cfg ("log." ++ mode) "daily_rotate") true
          maxdays := mustInt (iniGet cfg ("log." ++ mode) "max_days") 7 }
        match env.fileInitErr hid with
        | some e =>
            .builderr "failed to initialize file handler"
              (llogAppend s ["Failed to initialize file handler: " ++ e])
        | none =>
            let h : Handle := { hid := hid, closeErr := env.handleCloseErr hid,
                                reloadErr := env.handleReloadErr hid }
            .built (SinkVal.fileSink hid fcfg)
              { s with nextId := hid + 1,
                       loggersToClose := s.loggersToClose ++ [h],
                       loggersToReload := s.loggersToReload ++ [h] }
  else if mode = "syslog" then
    let hid := s.nextId
    let h : Handle := { hid := hid, closeErr := env.handleCloseErr hid,
                        reloadErr := env.handleReloadErr hid }
    .built (SinkVal.syslogSink hid format)
      { s with nextId := hid + 1, loggersToClose := s.loggersToClose ++ [h] }
  else
    .nohandler

/-- Embedding of the filter-merge and install tail of the mode loop (source
lines 269-287): join default filters into the mode filters (mode entries win),
copy the joined table into the global filter table (existing entries win), and
append the finished handler to Root. -/
def installHandler (s : GlobalState) (v : SinkVal) (modeFilters : FilterMap)
    (leveloption : LevelOption) (defaultFilters : FilterMap) : GlobalState :=
  let joined := mergeAbsent modeFilters defaultFilters
  { s with filters := mergeAbsent s.filters joined,
           root := ⟨s.root.loggers ++ [{ val := v, filters := joined,
                                         maxLevel := leveloption }]⟩ }

/-- Result of ReadLoggingConfig: success, an error return (the package state
as mutated so far is kept, as in Go), or a panic (which unwinds the process,
so no state is carried). -/
inductive Outcome where
  | ok (s : GlobalState)
  | fail (e : Err) (s : GlobalState)
  | panicked (msg : String)
deriving DecidableEq, Repr

def Outcome.okState? : Outcome → Option GlobalState
  | .ok s => some s
  | _ => none

def Outcome.isFail : Outcome → Bool
  | .fail _ _ => true
  | _ => false

def Outcome.isPanic : Outcome → Bool
  | .panicked _ => true
  | _ => false

/-- Embedding of one iteration of the mode loop (source lines 218-287): trim
the mode, fail on a missing log.mode section (after logging the unknown-mode
diagnostic), resolve the mode level, mode filters and format, run the
construction switch (whose unset handler value is the panic on line 266), and
install the handler. -/
def loadMode (cfg : IniFile) (logsPath : String) (env : Env)
    (defaultLevelName : String) (defaultFilters : FilterMap)
    (s0 : GlobalState) (mode0 : String) : Outcome :=
  let mode := goTrimSpace mode0
  match getSection cfg ("log." ++ mode) with
  | none =>
      Outcome.fail ("failed to get config section log." ++ mode)
        (llogAppend s0 ["Unknown log mode: " ++ mode])
  | some _ =>
      let lv := getLogLevelFromConfig ("log." ++ mode) defaultLevelName cfg
      let leveloption := lv.snd.fst
      let s1 := llogAppend s0 lv.snd.snd
      let mf := getFilters (splitString (iniGet cfg ("log." ++ mode) "filters"))
      let s2 := llogAppend s1 mf.snd
      let format := getLogFormat env.isTerminal
        (mustString (iniGet cfg ("log." ++ mode) "format") "")
      match buildHandlerVal cfg logsPath env mode format s2 with
      | .built v s3 =>
          Outcome.ok (installHandler s3 v mf.fst leveloption defaultFilters)
      | .builderr e s3 => Outcome.fail e s3
      | .nohandler =>
          Outcome.panicked ("Handler is uninitialized for mode " ++ mode)

/-- The mode loop of ReadLoggingConfig. -/
def loadModes (cfg : IniFile) (logsPath : String) (env : Env)
    (defaultLevelName : String) (defaultFilters : FilterMap) :
    GlobalState → List String → Outcome
  | s, [] => Outcome.ok s
  | s, mode :: rest =>
      match loadMode cfg logsPath env defaultLevelName defaultFilters s mode with
      | .ok s2 => loadModes cfg logsPath env defaultLevelName defaultFilters s2 rest
      | r => r

/-- Embedding of ReadLoggingConfig (source lines 210-289): close the old
closable handles and return on a close error; resolve the default level name
and default filters from the top-level log section; then run the mode loop. -/
def ReadLoggingConfig (modes : List String) (logsPath : String) (cfg : IniFile)
    (env : Env) (s : GlobalState) : Outcome :=
  let c := CloseOp s
  match c.fst with
  | some e => Outcome.fail e c.snd.snd
  | none =>
      let dl := getLogLevelFromConfig "log" "info" cfg
      let s1 := llogAppend c.snd.snd dl.snd.snd
      let df := getFilters (splitString (iniGet cfg "log" "filters"))
      let s2 := llogAppend s1 df.snd
      loadModes cfg logsPath env dl.fst df.fst s2 modes

/-! ### Specification-side characterizations and concrete scenarios -/

/-- The recognized construction modes of the loader's switch. -/
def recognizedMode (m : String) : Bool :=
  m = "console" || m = "file" || m = "syslog"

/-- Does a filter string contain a colon separator (strings.Split yields at
least two parts)? -/
def colonLen (s : String) : Bool :=
  match goSplitOn ':' s with
  | _ :: _ :: _ => true
  | _ => false

/-- The text before the first colon of a filter string. -/
def filterKey (s : String) : String :=
  (goSplitOn ':' s).headD ""

/-- The text between the first and second colons of a filter string (the part
the loader resolves as a level name). -/
def filterLevelStr (s : String) : String :=
  (goSplitOn ':' s).getD 1 ""

def lastColonStep (n : String) (acc : Option String) (s : String) : Option String :=
  if colonLen s = true ∧ filterKey s = n then some s else acc

/-- The last filter string in the list that has a colon and whose key is n
(a later binding for the same key overwrites an earlier one in a Go map). -/
def lastColonMatch (l : List String) (n : String) : Option String :=
  l.foldl (lastColonStep n) none

/-- The first error among the handles' Close() results. -/
def firstCloseErr (l : List Handle) : Option Err :=
  (l.filterMap (fun h => h.closeErr)).head?

/-- A default LogWithFilters used only to read list heads in concrete
scenarios. -/
def dfltLW : LogWithFilters :=
  { val := .consoleSink .logfmt, filters := [], maxLevel := .allowError }

/-- A registry with one debug-level sink and no per-name filter entries. -/
def authRootBefore : MultiLoggers :=
  ⟨[{ val := .consoleSink .logfmt, filters := [], maxLevel := .allowDebug }]⟩

/-- The same registry after a reload added the filter entry auth: error to the
sink's filter table. -/
def authRootAfter : MultiLoggers :=
  ⟨[{ val := .consoleSink .logfmt, filters := [("auth", .allowError)],
      maxLevel := .allowDebug }]⟩

/-- An environment in which every external effect succeeds and stdout is not a
terminal. -/
def env0 : Env :=
  { isTerminal := false, mkdirErr := fun _ => none, fileInitErr := fun _ => none,
    handleCloseErr := fun _ => none, handleReloadErr := fun _ => none }

/-- A configuration enabling the console mode with a default filter a: warn. -/
def cfgConsoleA : IniFile :=
  ⟨[("log", [("filters", "a:warn")]), ("log.console", [])]⟩

/-- A configuration enabling the console mode with no filters. -/
def cfgConsolePlain : IniFile :=
  ⟨[("log", []), ("log.console", [])]⟩

/-- A configuration enabling the file mode with all defaults. -/
def cfgFilePlain : IniFile :=
  ⟨[("log", []), ("log.file", [])]⟩

/-- A configuration holding a section for the unrecognized mode foobar. -/
def cfgFoobar : IniFile :=
  ⟨[("log", []), ("log.foobar", [])]⟩

/-- A configuration with no section for the mode foobar. -/
def cfgNoFoobar : IniFile :=
  ⟨[("log", [])]⟩

/-- A state holding one closable handle whose Close() fails with boom. -/
def sBoom : GlobalState :=
  { initState with
      loggersToClose := [{ hid := 0, closeErr := some "boom", reloadErr := none }] }

/-- The state after two successive successful console-mode loads (the first
with default filter a: warn, the second with no filters). -/
def afterTwoConsoleLoads : Option GlobalState :=
  (ReadLoggingConfig ["console"] "/logs" cfgConsoleA env0 initState).okState?.bind
    (fun s1 => (ReadLoggingConfig ["console"] "/logs" cfgConsolePlain env0 s1).okState?)

/-- The state after two successive successful file-mode loads. -/
def afterTwoFileLoads : Option GlobalState :=
  (ReadLoggingConfig ["file"] "/logs" cfgFilePlain env0 initState).okState?.bind
    (fun s1 => (ReadLoggingConfig ["file"] "/logs" cfgFilePlain env0 s1).okState?)

/-! ### Helper lemmas -/

theorem lookupF_insertF_self (m : FilterMap) (k : String) (v : LevelOption) :
    lookupF (insertF m k v) k = some v := by
  induction m with
  | nil => simp [insertF, lookupF]
  | cons kv t ih =>
      by_cases h : kv.fst = k
      · simp [insertF, h, lookupF]
      · simp [insertF, h, lookupF, ih]

theorem lookupF_insertF_ne (m : FilterMap) (k k' : String) (v : LevelOption)
    (h : k ≠ k') : lookupF (insertF m k v) k' = lookupF m k' := by
  induction m with
  | nil => simp [insertF, lookupF, h]
  | cons kv t ih =>
      by_cases hk : kv.fst = k
      · subst hk
        simp [insertF, lookupF, h]
      · simp [insertF, hk, lookupF, ih]

theorem lookupF_mergeAbsent (src target : FilterMap) (n : String) :
    lookupF (mergeAbsent target src) n =
      match lookupF target n with
      | some v => some v
      | none => lookupF src n := by
  induction src generalizing target with
  | nil => rcases h : lookupF target n with _ | v <;> simp [mergeAbsent, lookupF, h]
  | cons kv rest ih =>
      have hstep : mergeAbsent target (kv :: rest)
          = mergeAbsent
              (if containsF target kv.fst then target else insertF target kv.fst kv.snd)
              rest := rfl
      rw [hstep, ih]
      by_cases hk : kv.fst = n
      · subst hk
        rcases ho : lookupF target kv.fst with _ | v
        · have hc : ¬ containsF target kv.fst := by simp [containsF, ho]
          simp only [if_neg hc]
          rw [lookupF_insertF_self]
          simp [ho, lookupF]
        · have hc : containsF target kv.fst := by simp [containsF, ho]
          simp only [if_pos hc]
          simp [ho]
      · have hlk : lookupF (kv :: rest) n = lookupF rest n := by
          simp [lookupF, hk]
        by_cases hc : containsF target kv.fst
        · simp only [if_pos hc, hlk]
        · simp only [if_neg hc, hlk]
          rw [lookupF_insertF_ne _ _ _ _ hk]

theorem lookupF_getFilters (l : List String) (n : String) :
    lookupF (getFilters l).fst n =
      (lastColonMatch l n).map
        (fun s => (getLogLevelFromString (filterLevelStr s)).fst) := by
  induction l using List.reverseRecOn with
  | nil => rfl
  | append_singleton l s ih =>
      have h1 : getFilters (l ++ [s]) = getFiltersStep (getFilters l) s := by
        simp [getFilters, List.foldl_append]
      have h2 : lastColonMatch (l ++ [s]) n
          = lastColonStep n (lastColonMatch l n) s := by
        simp [lastColonMatch, List.foldl_append]
      rw [h1, h2]
      rcases hsp : goSplitOn ':' s with _ | ⟨p0, tl⟩
      · simp [getFiltersStep, hsp, lastColonStep, colonLen, ih]
      · rcases tl with _ | ⟨p1, rest⟩
        · simp [getFiltersStep, hsp, lastColonStep, colonLen, ih]
        · have hc : colonLen s = true := by simp [colonLen, hsp]
          have hk : filterKey s = p0 := by simp [filterKey, hsp]
          have hl : filterLevelStr s = p1 := by simp [filterLevelStr, hsp]
          by_cases hp : p0 = n
          · subst hp
            simp [getFiltersStep, hsp, lastColonStep, hc, hk, hl,
              lookupF_insertF_self]
          · simp [getFiltersStep, hsp, lastColonStep, hc, hk, hp,
              lookupF_insertF_ne _ _ _ _ hp, ih]

theorem closeFold_some (l : List Handle) (e : Err) :
    l.foldl closeStep (some e) = some e := by
  induction l with
  | nil => rfl
  | cons h t ih => cases hc : h.closeErr <;> simp [closeStep, hc, ih]

theorem closeFold_none (l : List Handle) :
    l.foldl closeStep none = firstCloseErr l := by
  induction l with
  | nil => rfl
  | cons h t ih =>
      cases hc : h.closeErr with
      | none =>
          simp [closeStep, hc, firstCloseErr, List.filterMap_cons, ih]
      | some e =>
          simp [closeStep, hc, firstCloseErr, List.filterMap_cons, closeFold_some]

theorem reloadOp_all_ok (l : List Handle) (hl : ∀ x ∈ l, x.reloadErr = none) :
    ReloadOp l = (none, l.map (fun x => x.hid)) := by
  induction l with
  | nil => rfl
  | cons a t ih =>
      have ha : a.reloadErr = none := hl a (List.mem_cons_self a t)
      simp [ReloadOp, ha, ih (fun x hx => hl x (List.mem_cons_of_mem a hx))]

theorem reloadOp_first_failure (pre post : List Handle) (h : Handle) (e : Err)
    (hpre : ∀ x ∈ pre, x.reloadErr = none) (hh : h.reloadErr = some e) :
    ReloadOp (pre ++ h :: post) = (some e, pre.map (fun x => x.hid) ++ [h.hid]) := by
  induction pre with
  | nil => simp [ReloadOp, hh]
  | cons a t ih =>
      have ha : a.reloadErr = none := hpre a (List.mem_cons_self a t)
      simp [ReloadOp, ha, ih (fun x hx => hpre x (List.mem_cons_of_mem a hx))]

/-! ### Claim theorems -/

/-- C1 (code bug): the claim says every successful ReadLoggingConfig leaves
the Registry holding exactly one handle per enabled mode and nothing else,
with no survivors from an earlier load.  The code only ever appends: after two
successful loads of the single mode console, Root holds two handlers instead
of one, and the global filter entry a: warn installed by the first load
survives the second load even though the second configuration defines no
filters; after two successful loads of the single mode file, the reloadable
list still holds the first load's (closed) file handle 0 next to the new
handle 1, while the closable list was correctly reset to the new handle. -/
theorem registry_accumulates_across_loads :
    afterTwoConsoleLoads.map
        (fun s => (s.root.loggers.length, lookupF s.filters "a"))
      = some (2, some LevelOption.allowWarn)
    ∧ afterTwoFileLoads.map
        (fun s => (s.loggersToReload.map (fun h => h.hid),
                   s.loggersToClose.map (fun h => h.hid),
                   s.root.loggers.length))
      = some ([0, 1], [1], 2) := by
  exact ⟨by decide, by decide⟩

/-- C2 (counterexample): with one closable handle whose Close() fails with
boom and a configuration whose single enabled mode console constructs
successfully (third conjunct: the identical load succeeds once the close error
is gone), ReadLoggingConfig returns the close error and installs nothing,
refuting the claim that loading proceeds past a close failure. -/
theorem close_error_no_proceed_cex :
    ReadLoggingConfig ["console"] "/l" cfgConsoleA env0 sBoom
      = Outcome.fail "boom" { sBoom with loggersToClose := [] }
    ∧ ({ sBoom with loggersToClose := [] } : GlobalState).root.loggers.length = 0
    ∧ (ReadLoggingConfig ["console"] "/l" cfgConsoleA env0
        { sBoom with loggersToClose := [] }).okState?.isSome = true := by
  exact ⟨by decide, by decide, by decide⟩

/-- C2 (amended): when the initial Close() fails, ReadLoggingConfig returns
that error immediately, with the closable list cleared and everything else
untouched; it does not proceed to construct or install any handle. -/
theorem close_error_aborts_load (s : GlobalState) (modes : List String)
    (logsPath : String) (cfg : IniFile) (env : Env) (e : Err)
    (h : (CloseOp s).fst = some e) :
    ReadLoggingConfig modes logsPath cfg env s
      = Outcome.fail e { s with loggersToClose := [] } := by
  simp only [ReadLoggingConfig]
  rw [h]
  rfl

/-- C2 witness: the amended theorem applied to the concrete boom state. -/
theorem close_error_aborts_load_witness :
    ReadLoggingConfig ["console"] "/l" cfgConsoleA env0 sBoom
      = Outcome.fail "boom" { sBoom with loggersToClose := [] } :=
  close_error_aborts_load sBoom ["console"] "/l" cfgConsoleA env0 "boom" rfl

/-- C3 (counterexample): the unrecognized mode foobar is not silently
skipped: when a log.foobar section exists the load panics (handler value left
unset), and when the section is missing the load aborts with an error. -/
theorem unrecognized_mode_panics_cex :
    (ReadLoggingConfig ["foobar"] "/l" cfgFoobar env0 initState).isPanic = true
    ∧ (ReadLoggingConfig ["foobar"] "/l" cfgNoFoobar env0 initState).isFail = true := by
  exact ⟨by decide, by decide⟩

/-- C3 (amended): an enabled mode outside console/file/syslog is never
skipped: if its log.mode section is missing, ReadLoggingConfig logs the
unknown-mode diagnostic and aborts with an error; if the section exists, no
construction branch matches, the handler value stays unset, and the load
panics. -/
theorem unrecognized_mode_not_skipped (m logsPath : String) (cfg : IniFile)
    (env : Env) (s : GlobalState)
    (hrec : recognizedMode (goTrimSpace m) = false)
    (hclose : (CloseOp s).fst = none) :
    (getSection cfg ("log." ++ goTrimSpace m) = none →
       (ReadLoggingConfig [m] logsPath cfg env s).isFail = true)
    ∧ ((getSection cfg ("log." ++ goTrimSpace m)).isSome = true →
       (ReadLoggingConfig [m] logsPath cfg env s).isPanic = true) := by
  simp only [recognizedMode, Bool.or_eq_false_iff, decide_eq_false_iff_not] at hrec
  obtain ⟨⟨h1, h2⟩, h3⟩ := hrec
  constructor
  · intro hsec
    simp only [ReadLoggingConfig]
    rw [hclose]
    simp [loadModes, loadMode, hsec, Outcome.isFail]
  · intro hsome
    obtain ⟨sec, hsec⟩ := Option.isSome_iff_exists.mp hsome
    simp only [ReadLoggingConfig]
    rw [hclose]
    simp [loadModes, loadMode, hsec, buildHandlerVal, h1, h2, h3, Outcome.isPanic]

/-- C3 witness: the amended theorem applied to mode foobar, a configuration
holding a log.foobar section, and the initial state. -/
theorem unrecognized_mode_not_skipped_witness :
    (ReadLoggingConfig ["foobar"] "/l" cfgFoobar env0 initState).isPanic = true :=
  (unrecognized_mode_not_skipped "foobar" "/l" cfgFoobar env0 initState
    (by decide) rfl).2 (by decide)

/-- C4 (confirmed): New maps each sink handle of the registry to a copy whose
value is the old value extended with the logger name and context and wrapped,
at creation time, in a filter whose minimum is the sink's per-name entry when
one exists for this logger name, else the sink's maximum level; dispatch
through a value so wrapped is governed by exactly that bound minimum (and
whatever filtering the old value already carried).  Because the bound is baked
into the returned value, it is frozen at creation: the concrete conjuncts show
a logger created for auth before the filter auth: error existed lets warn
events through, while one created after a reload installed that entry does
not. -/
theorem new_binds_filters_at_creation (root : MultiLoggers) (n : String)
    (ctx : List String) (lw : LogWithFilters) (sev : Severity) :
    ((New n ctx root).loggers = root.loggers.map (fun lw2 =>
        { lw2 with
            val := SinkVal.filtered ((lookupF lw2.filters n).getD lw2.maxLevel)
              (SinkVal.withContext n ctx lw2.val) }))
    ∧ SinkVal.allows
        (SinkVal.filtered ((lookupF lw.filters n).getD lw.maxLevel)
          (SinkVal.withContext n ctx lw.val)) sev
      = (passes ((lookupF lw.filters n).getD lw.maxLevel) sev
         && SinkVal.allows lw.val sev)
    ∧ SinkVal.allows (((New "auth" [] authRootBefore).loggers.headD dfltLW).val)
        Severity.warn = true
    ∧ SinkVal.allows (((New "auth" [] authRootAfter).loggers.headD dfltLW).val)
        Severity.warn = false := by
  refine ⟨?_, rfl, by decide, by decide⟩
  show (root.loggers.map _) = _
  have hf : (fun lw2 =>
        let v := SinkVal.withContext n ctx lw2.val
        match lookupF lw2.filters n with
        | some fl => { lw2 with val := SinkVal.filtered fl v }
        | none => { lw2 with val := SinkVal.filtered lw2.maxLevel v })
      = (fun lw2 : LogWithFilters =>
          { lw2 with
              val := SinkVal.filtered ((lookupF lw2.filters n).getD lw2.maxLevel)
                (SinkVal.withContext n ctx lw2.val) }) := by
    funext lw2
    rcases hl : lookupF lw2.filters n with _ | fl <;> simp [hl]
  rw [hf]

/-- C4 witness: the binding rule applied to the concrete one-sink registry
without an auth filter entry. -/
theorem new_binds_filters_at_creation_witness :
    SinkVal.allows (((New "auth" [] authRootBefore).loggers.headD dfltLW).val)
      Severity.warn = true :=
  (new_binds_filters_at_creation authRootBefore "auth" [] dfltLW
    Severity.warn).2.2.1

/-- C5 (confirmed): the join of default filters into a mode's table binds each
name to the mode's entry when one exists, else the default entry; copying a
joined table into the global table never overwrites an existing global entry,
so across two modes the global table binds each name to the first mode's entry
when both define it (first-writer-wins), as the third conjunct shows starting
from the empty global table. -/
theorem filter_merge_semantics (m d g j1 j2 : FilterMap) (n : String) :
    (lookupF (mergeAbsent m d) n =
      match lookupF m n with
      | some v => some v
      | none => lookupF d n)
    ∧ (lookupF (mergeAbsent g (mergeAbsent m d)) n =
      match lookupF g n with
      | some v => some v
      | none => lookupF (mergeAbsent m d) n)
    ∧ (lookupF (mergeAbsent (mergeAbsent [] j1) j2) n =
      match lookupF j1 n with
      | some v => some v
      | none => lookupF j2 n) := by
  refine ⟨lookupF_mergeAbsent d m n, lookupF_mergeAbsent (mergeAbsent m d) g n, ?_⟩
  rw [lookupF_mergeAbsent, lookupF_mergeAbsent]
  rcases lookupF j1 n with _ | v <;> simp [lookupF]

/-- C6 (confirmed): a name looks up in the parsed filter map to the level of
the last listed string that contains a colon and whose text before the first
colon is that name, resolved by getLogLevelFromString from the text after the
first colon; strings without a colon contribute nothing.  The concrete
conjuncts show a string with a colon but an unrecognized level name still
yields an entry, bound to the unknown-level fallback error filter, while a
colonless string yields none. -/
theorem getFilters_characterization (l : List String) (n : String) :
    (lookupF (getFilters l).fst n =
      (lastColonMatch l n).map
        (fun s => (getLogLevelFromString (filterLevelStr s)).fst))
    ∧ lookupF (getFilters ["x:bogus", "nocolon"]).fst "x"
        = some LevelOption.allowError
    ∧ lookupF (getFilters ["x:bogus", "nocolon"]).fst "nocolon" = none
    ∧ logLevels "bogus" = none := by
  exact ⟨lookupF_getFilters l n, by decide, by decide, by decide⟩

/-- C7 (counterexample): getLogLevelFromString is not case-insensitive: the
recognized severity name debug spelled DEBUG does not resolve to the
documented debug level but takes the unknown-level fallback to error-level
filtering, emitting a diagnostic. -/
theorem level_resolution_case_sensitive_cex :
    (getLogLevelFromString "DEBUG").fst = LevelOption.allowError
    ∧ (getLogLevelFromString "debug").fst = LevelOption.allowDebug
    ∧ LevelOption.allowError ≠ LevelOption.allowDebug
    ∧ (getLogLevelFromString "DEBUG").snd.length = 1 := by
  exact ⟨by decide, by decide, by decide, by decide⟩

/-- C7 (amended): getLogLevelFromString recognizes exactly the lowercase
names of the logLevels table (trace and debug map to debug-level filtering,
critical and error to error-level filtering); any other spelling, uppercase
included, falls back to error-level filtering with exactly one diagnostic.
Case-insensitivity holds only on the configuration path: getLogLevelFromConfig
lower-cases the configured name before resolving it, so a level configured in
any letter case resolves to its documented level there. -/
theorem level_resolution_semantics (name c key dflt : String) (l : LevelOption)
    (h : logLevels (goToLower c) = some l) :
    (getLogLevelFromString name).fst = (logLevels name).getD LevelOption.allowError
    ∧ (getLogLevelFromString name).snd.length
        = (if (logLevels name).isSome then 0 else 1)
    ∧ ((getLogLevelFromConfig key dflt ⟨[(key, [("level", c)])]⟩).snd).fst = l := by
  refine ⟨?_, ?_, ?_⟩
  · rcases hn : logLevels name with _ | v <;> simp [getLogLevelFromString, hn]
  · rcases hn : logLevels name with _ | v <;> simp [getLogLevelFromString, hn]
  · have hc : c ≠ "" := by
      intro he
      subst he
      exact Option.noConfusion h
    simp only [getLogLevelFromConfig, iniGet, getSection, lookupSec, lookupStr,
      mustString]
    simp [hc, getLogLevelFromString, h]

/-- C7 witness: the amended theorem applied to the configured level DEBUG,
which the configuration path resolves to debug-level filtering. -/
theorem level_resolution_semantics_witness :
    ((getLogLevelFromConfig "log" "info"
        ⟨[("log", [("level", "DEBUG")])]⟩).snd).fst = LevelOption.allowDebug :=
  (level_resolution_semantics "bogus" "DEBUG" "log" "info" LevelOption.allowDebug
    (by decide)).2.2

/-- C8 (confirmed): Reload invokes the reloadable handles in registration
order and is fail-fast: when every handle before the k-th succeeds and the
k-th fails, it returns the k-th handle's error having invoked exactly the
handles up to and including the k-th; when every handle succeeds it returns
none having invoked them all. -/
theorem reload_fail_fast (pre post l : List Handle) (h : Handle) (e : Err)
    (hpre : ∀ x ∈ pre, x.reloadErr = none) (hh : h.reloadErr = some e) :
    ReloadOp (pre ++ h :: post) = (some e, pre.map (fun x => x.hid) ++ [h.hid])
    ∧ ((∀ x ∈ l, x.reloadErr = none) → ReloadOp l = (none, l.map (fun x => x.hid))) :=
  ⟨reloadOp_first_failure pre post h e hpre hh, fun hl => reloadOp_all_ok l hl⟩

/-- C8 witness: three reloadable handles where the second fails: the returned
error is the second handle's and the third is never invoked. -/
theorem reload_fail_fast_witness :
    ReloadOp [⟨1, none, none⟩, ⟨2, none, some "boom"⟩, ⟨3, none, none⟩]
      = (some "boom", [1, 2]) :=
  (reload_fail_fast [⟨1, none, none⟩] [⟨3, none, none⟩] [] ⟨2, none, some "boom"⟩
    "boom" (by decide) rfl).1

/-- C9 (confirmed): Close invokes Close() on every registered closable handle
(the invocation trace lists them all, regardless of failures), returns the
first error encountered (none when the closable list is empty), always clears
the closable list, and a repeated Close is a no-op returning none. -/
theorem close_best_effort (s : GlobalState) :
    (CloseOp s).snd.fst = s.loggersToClose.map (fun h => h.hid)
    ∧ (CloseOp s).fst = firstCloseErr s.loggersToClose
    ∧ (CloseOp s).snd.snd = { s with loggersToClose := [] }
    ∧ (s.loggersToClose = [] → (CloseOp s).fst = none)
    ∧ CloseOp ((CloseOp s).snd.snd) = (none, [], (CloseOp s).snd.snd) := by
  refine ⟨rfl, closeFold_none _, rfl, ?_, rfl⟩
  intro h
  show s.loggersToClose.foldl closeStep none = none
  rw [h]
  rfl

/-- C9 witness: Close on a state with zero closable handles returns none. -/
theorem close_best_effort_witness : (CloseOp initState).fst = none :=
  (close_best_effort initState).2.2.2.1 rfl

/-- C10 (confirmed): Close only clears the closable list: the reloadable
list, the Registry's sink list and the global filter table are unchanged, so
Reload after Close invokes exactly the handles it would have invoked before,
and a Named Logger created after Close is identical to one created before
(it fans out to the same, now closed, sinks). -/
theorem close_frame (s : GlobalState) (n : String) (ctx : List String) :
    ((CloseOp s).snd.snd).loggersToReload = s.loggersToReload
    ∧ ((CloseOp s).snd.snd).root = s.root
    ∧ ((CloseOp s).snd.snd).filters = s.filters
    ∧ ReloadOp ((CloseOp s).snd.snd).loggersToReload = ReloadOp s.loggersToReload
    ∧ New n ctx ((CloseOp s).snd.snd).root = New n ctx s.root :=
  ⟨rfl, rfl, rfl, rfl, rfl⟩

end GrafLog
